import Mathlib

set_option maxRecDepth 20000

namespace SpectrogramEmu

/-!
Shallow embedding of `src/plugins/spectrogram_emu.ts` (wavesurfer.js, EMU
spectrogram plugin).  JavaScript numbers are modelled as rationals, sample
buffers as lists of rationals, and the DOM / worker collaborators appear only
through the values the plugin reads from them each tick.  Nullable object
references are `Option` values; dereferencing `none` is a `crashed` outcome.
-/

/-- JS `ToIntegerOrInfinity` on a finite number: truncation toward zero.
Used by `TypedArray.prototype.subarray` to convert its index arguments. -/
def jsTrunc (q : ℚ) : ℤ := if 0 ≤ q then ⌊q⌋ else ⌈q⌉

/-- Clamping of a (already truncated) relative index performed by
`TypedArray.prototype.subarray`: a negative index counts from the end and is
floored at 0, a nonnegative one is capped at the length. -/
def relIndex (len : ℕ) (q : ℚ) : ℕ :=
  if jsTrunc q < 0 then ((len : ℤ) + jsTrunc q).toNat else min (jsTrunc q).toNat len

/-- `buffer.subarray(a, b)` (lines 379, 384, 387 of the source): the elements
between the two clamped indices, empty when they cross. -/
def subarray (buf : List ℚ) (a b : ℚ) : List ℚ :=
  (buf.take (relIndex buf.length b)).drop (relIndex buf.length a)

/-- The `while (Math.pow(2, curExp) < num) curExp = curExp + 1` loop of
`calcClosestPowerOf2Gt` (lines 307-316).  The loop is an upward search from
exponent 0; the `fuel` argument is a termination bound only, always chosen
large enough that the loop condition fails before fuel runs out. -/
def pow2SearchAux (num : ℚ) : ℕ → ℕ → ℕ
  | 0, curExp => curExp
  | fuel + 1, curExp =>
      if (2 : ℚ) ^ curExp < num then pow2SearchAux num fuel (curExp + 1) else curExp

/-- `calcClosestPowerOf2Gt(num)` (source lines 307-316): smallest power of two
that is at least `num`, computed by the exponent loop starting at 0. -/
def calcClosestPowerOf2Gt (num : ℚ) : ℕ :=
  2 ^ pow2SearchAux num (num.num.toNat + 1) 0

/-- Lines 371-374: `fftN = calcClosestPowerOf2Gt(sampleRate * windowSizeInSecs);
if (fftN < 512) fftN = 512`. -/
def fftNOf (sampleRate windowSizeInSecs : ℚ) : ℕ :=
  let f := calcClosestPowerOf2Gt (sampleRate * windowSizeInSecs)
  if f < 512 then 512 else f

/-- Lines 394-397: `let upperFreq = sampleRate / 2; if (this.options.upperFreq)
upperFreq = this.options.upperFreq`.  An absent option is `none`; the JS
truthiness test makes an explicit `0` fall back to `sampleRate / 2` as well. -/
def upperFreqOf (opt : Option ℚ) (sampleRate : ℚ) : ℚ :=
  match opt with
  | none => sampleRate / 2
  | some v => if v ≠ 0 then v else sampleRate / 2

/-- Lines 379-392: the padded sample buffer.  `data = buffer.subarray(sS, eS)`;
left padding only when `sS > windowSizeInSamples / 2`, right padding only when
`eS + fftN / 2 - 1 < buffer.length`; the three pieces are concatenated into
`paddedSamples`. -/
def paddedSamplesOf (buffer : List ℚ) (sS eS : ℤ) (windowSizeInSamples : ℚ)
    (fftN : ℕ) : List ℚ :=
  let data := subarray buffer (sS : ℚ) (eS : ℚ)
  let leftPad : List ℚ :=
    if windowSizeInSamples / 2 < (sS : ℚ) then
      subarray buffer ((sS : ℚ) - windowSizeInSamples / 2) (sS : ℚ)
    else []
  let rightPad : List ℚ :=
    if (eS : ℚ) + (fftN : ℚ) / 2 - 1 < (buffer.length : ℚ) then
      subarray buffer (eS : ℚ) ((eS : ℚ) + (fftN : ℚ) / 2 - 1)
    else []
  leftPad ++ data ++ rightPad

/-- Decoded audio as read from the host (`wavesurfer.getDecodedData()`):
per-channel frame count, sample rate and the channel buffers. -/
structure DecodedData where
  length : ℕ
  sampleRate : ℚ
  channels : List (List ℚ)
deriving DecidableEq

/-- Host state sampled by one tick: scroll geometry of the scroll container
(line 333), the decoded data, the wrapper element dimensions (lines 361-362)
and the device pixel density (line 412). -/
structure Env where
  scrollLeft : ℚ
  scrollWidth : ℚ
  clientWidth : ℚ
  decodedData : Option DecodedData
  wrapperWidth : ℕ
  wrapperHeight : ℕ
  devicePixelRatio : ℚ
deriving DecidableEq

/-- Line 345: `sS = Math.floor(scrollLeft / scrollWidth * nS)`. -/
def rangeStart (env : Env) (nS : ℕ) : ℤ :=
  ⌊env.scrollLeft / env.scrollWidth * (nS : ℚ)⌋

/-- Line 346: `eS = Math.floor((scrollLeft + clientWidth) / scrollWidth * nS)`. -/
def rangeEnd (env : Env) (nS : ℕ) : ℤ :=
  ⌊(env.scrollLeft + env.clientWidth) / env.scrollWidth * (nS : ℚ)⌋

/-- The plugin options after `Object.assign({}, defaultOptions, options)`
(only the fields the render loop reads). -/
structure Opts where
  channel : ℕ
  windowSizeInSecs : ℚ
  upperFreq : Option ℚ
  lowerFreq : ℚ
  alpha : ℚ
  dynRangeInDB : ℚ
  preEmphasisFilterFactor : ℚ
  transparency : ℕ
  drawHeatMapColors : Bool
  heatMapColorAnchors : List (List ℕ)
  invert : Bool
deriving DecidableEq

/-- The message posted to the drawing worker by `spectroWorker.tell` (lines
401-421), field for field. -/
structure RenderRequest where
  windowSizeInSecs : ℚ
  fftN : ℕ
  alpha : ℚ
  upperFreq : ℚ
  lowerFreq : ℚ
  samplesPerPxl : ℚ
  window : ℕ
  imgWidth : ℕ
  imgHeight : ℕ
  dynRangeInDB : ℚ
  pixelRatio : ℚ
  sampleRate : ℚ
  transparency : ℕ
  audioBuffer : List ℚ
  audioBufferChannels : ℕ
  drawHeatMapColors : Bool
  preEmphasisFilterFactor : ℚ
  heatMapColorAnchors : List (List ℕ)
  invert : Bool
deriving DecidableEq

/-- The display image buffer (`this.imageData`).  `allocId` is an allocation
identity: `createImageData` always returns a buffer with a fresh id, so two
buffers are the same JS object instance exactly when their ids agree. -/
structure ImageData where
  width : ℕ
  height : ℕ
  allocId : ℕ
  data : List ℕ
deriving DecidableEq

/-- `ctx.createImageData(w, h)`: a fresh zero-initialised RGBA buffer of
`w * h * 4` bytes. -/
def createImageData (w h allocId : ℕ) : ImageData :=
  ⟨w, h, allocId, List.replicate (w * h * 4) 0⟩

/-- The mutable per-instance plugin state: the dirty flag `update_needed`, the
previous sample range `old_sS`/`old_eS`, the `terminated` flag, the canvas
backing-store dimensions, the cached image buffer, and the nullable object
references the methods dereference (`options`, `spectroWorker`, `wrapper`,
`wavesurfer`, `util`).  `nextImageId` is the allocation counter backing
`ImageData.allocId`. -/
structure PluginState where
  update_needed : Bool
  old_sS : ℤ
  old_eS : ℤ
  terminated : Bool
  canvasWidth : ℕ
  canvasHeight : ℕ
  imageData : ImageData
  nextImageId : ℕ
  options : Option Opts
  windowNum : ℕ
  spectroWorker : Option Unit
  wrapper : Option Unit
  wavesurfer : Option Unit
  util : Option Unit
deriving DecidableEq

/-- Outcome of one `render` tick: returned without submitting, submitted a
request to the worker, or threw on a null dereference. -/
inductive TickResult
  | idle : TickResult
  | submitted : RenderRequest → TickResult
  | crashed : TickResult
deriving DecidableEq

/-- The request carried by a `submitted` outcome, if any. -/
def TickResult.submittedReq : TickResult → Option RenderRequest
  | .submitted r => some r
  | _ => none

/-- Result of one `render` tick: the state after the tick, the outcome, and
whether the branch taken called `window.requestAnimationFrame` to schedule the
next tick. -/
structure TickOut where
  state : PluginState
  result : TickResult
  scheduledNext : Bool
deriving DecidableEq

/-- The request built at lines 366-421 from the decoded data, the options and
the freshly resized canvas. -/
def buildRequest (env : Env) (dd : DecodedData) (opts : Opts) (windowNum : ℕ)
    (canvasW canvasH : ℕ) (sS eS : ℤ) : RenderRequest :=
  let buffer := dd.channels.getD opts.channel []
  let sampleRate := dd.sampleRate
  let fftN := fftNOf sampleRate opts.windowSizeInSecs
  let windowSizeInSamples := opts.windowSizeInSecs * sampleRate
  { windowSizeInSecs := opts.windowSizeInSecs
    fftN := fftN
    alpha := opts.alpha
    upperFreq := upperFreqOf opts.upperFreq sampleRate
    lowerFreq := opts.lowerFreq
    samplesPerPxl := ((eS : ℚ) + 1 - (sS : ℚ)) / (canvasW : ℚ)
    window := windowNum
    imgWidth := canvasW
    imgHeight := canvasH
    dynRangeInDB := opts.dynRangeInDB
    pixelRatio := env.devicePixelRatio
    sampleRate := sampleRate
    transparency := opts.transparency
    audioBuffer := paddedSamplesOf buffer sS eS windowSizeInSamples fftN
    audioBufferChannels := 1
    drawHeatMapColors := opts.drawHeatMapColors
    preEmphasisFilterFactor := opts.preEmphasisFilterFactor
    heatMapColorAnchors := opts.heatMapColorAnchors
    invert := opts.invert }

/-- The `render` method (lines 320-422), branch for branch:
terminated guard (no reschedule); dirty-flag guard (reschedule); null
`wavesurfer` dereference; missing decoded data (clear dirty, reschedule);
unchanged-range guard (clear dirty, reschedule); otherwise clear dirty, store
the range, resize the canvas to the wrapper, build the request and post it to
the worker without scheduling a next tick. -/
def render (env : Env) (s : PluginState) : TickOut :=
  if s.terminated = true then ⟨s, .idle, false⟩
  else if s.update_needed = false then ⟨s, .idle, true⟩
  else
    match s.wavesurfer with
    | none => ⟨s, .crashed, false⟩
    | some _ =>
      match env.decodedData with
      | none => ⟨{ s with update_needed := false }, .idle, true⟩
      | some dd =>
        if rangeStart env dd.length = s.old_sS ∧ rangeEnd env dd.length = s.old_eS then
          ⟨{ s with update_needed := false }, .idle, true⟩
        else
          match s.wrapper with
          | none =>
            ⟨{ s with update_needed := false, old_sS := rangeStart env dd.length,
                      old_eS := rangeEnd env dd.length }, .crashed, false⟩
          | some _ =>
            match s.options with
            | none =>
              ⟨{ s with update_needed := false, old_sS := rangeStart env dd.length,
                        old_eS := rangeEnd env dd.length,
                        canvasHeight := env.wrapperHeight,
                        canvasWidth := env.wrapperWidth }, .crashed, false⟩
            | some opts =>
              match s.spectroWorker with
              | none =>
                ⟨{ s with update_needed := false, old_sS := rangeStart env dd.length,
                          old_eS := rangeEnd env dd.length,
                          canvasHeight := env.wrapperHeight,
                          canvasWidth := env.wrapperWidth }, .crashed, false⟩
              | some _ =>
                ⟨{ s with update_needed := false, old_sS := rangeStart env dd.length,
                          old_eS := rangeEnd env dd.length,
                          canvasHeight := env.wrapperHeight,
                          canvasWidth := env.wrapperWidth },
                 .submitted (buildRequest env dd opts s.windowNum env.wrapperWidth
                    env.wrapperHeight (rangeStart env dd.length) (rangeEnd env dd.length)),
                 false⟩

/-- What the worker-response callback did: blit the image to the canvas, call
`requestAnimationFrame`, or throw (a `set` range error). -/
structure RespOut where
  blitted : Bool
  scheduledNext : Bool
  threw : Bool
deriving DecidableEq

/-- Second half of the `spectroWorker.says` callback (lines 243-251): copy the
response bytes in with `imageData.data.set(tmp)` (overwriting a prefix of the
buffer in place), blit with `putImageData`, and request the next animation
frame.  `set` throws a RangeError (and nothing after it runs) when the
response is larger than the buffer. -/
def respWrite (s1 : PluginState) (img : List ℕ) : PluginState × RespOut :=
  if img.length ≤ s1.imageData.data.length then
    ({ s1 with imageData := { s1.imageData with
         data := img ++ s1.imageData.data.drop img.length } },
     { blitted := true, scheduledNext := true, threw := false })
  else (s1, { blitted := false, scheduledNext := false, threw := true })

/-- The `spectroWorker.says` callback installed in `onInit` (lines 237-252):
recreate `imageData` when the canvas dimensions changed (lines 240-241), then
copy / blit / reschedule (`respWrite`). -/
def handleResponse (s : PluginState) (img : List ℕ) : PluginState × RespOut :=
  if s.imageData.width ≠ s.canvasWidth ∨ s.imageData.height ≠ s.canvasHeight then
    respWrite { s with imageData := createImageData s.canvasWidth s.canvasHeight s.nextImageId,
                       nextImageId := s.nextImageId + 1 } img
  else respWrite s img

/-- The state mutations of `destroy` (lines 263-276): set `terminated`, null
out `wavesurfer`, `util` and `options`, remove and null the wrapper, and null
the worker reference. -/
def destroyState (s : PluginState) : PluginState :=
  { s with terminated := true, wavesurfer := none, util := none, options := none,
           wrapper := none, spectroWorker := none }

/-- `destroy()` (lines 263-276).  All field mutations succeed; the call throws
a TypeError at `this.spectroWorker.kill()` when the worker reference has
already been nulled (i.e. on a second call).  At the throw point the fields
have already been cleared, so the state is `destroyState s` either way. -/
def destroy (s : PluginState) : Except Unit PluginState :=
  match s.spectroWorker with
  | some _ => .ok (destroyState s)
  | none => .error ()

/-- Whole-system configuration for the scheduling loop: the plugin state, the
number of worker requests in flight, and the number of animation-frame
callbacks currently queued. -/
structure Sys where
  ps : PluginState
  pending : ℕ
  queued : ℕ
deriving DecidableEq

/-- Events of the cooperative loop: an animation-frame tick runs `render`; a
worker response runs the `says` callback; a host event (`redraw` / `scroll` /
`ready`, lines 255-257) sets the dirty flag; detach runs the destroy
mutations.  Each constructor updates the in-flight and queued-tick counters
exactly as the code does: a tick consumes one queued callback and queues a new
one only if its branch called `requestAnimationFrame`; posting a request adds
one in-flight; a response consumes one in-flight and queues a tick unless the
callback threw. -/
inductive Step : Sys → Sys → Prop
  | tick (sys : Sys) (env : Env) (h : 0 < sys.queued) :
      Step sys
        { ps := (render env sys.ps).state
          pending := sys.pending +
            (if (render env sys.ps).result.submittedReq.isSome then 1 else 0)
          queued := (sys.queued - 1) +
            (if (render env sys.ps).scheduledNext then 1 else 0) }
  | response (sys : Sys) (img : List ℕ) (h : 0 < sys.pending) :
      Step sys
        { ps := (handleResponse sys.ps img).1
          pending := sys.pending - 1
          queued := sys.queued +
            (if (handleResponse sys.ps img).2.scheduledNext then 1 else 0) }
  | hostEvent (sys : Sys) :
      Step sys { sys with ps := { sys.ps with update_needed := true } }
  | detach (sys : Sys) :
      Step sys { sys with ps := destroyState sys.ps }

/-- States reachable from attach time: `onInit` queues exactly one initial
animation frame (line 260) with nothing in flight. -/
inductive Reachable : Sys → Prop
  | init (s0 : PluginState) : Reachable { ps := s0, pending := 0, queued := 1 }
  | step {a b : Sys} : Reachable a → Step a b → Reachable b

/-- Modelled from the spec: the padded-buffer length formula asserted by the
claim under test, `leftPad + (endSample - startSample) + rightPad` with
`leftPad = min(startSample, windowSizeInSamples/2)` and
`rightPad = min(totalSamples - endSample, fftSize/2 - 1)`. -/
def specPaddedLen (sS eS nS : ℤ) (windowSizeInSamples : ℚ) (fftN : ℕ) : ℚ :=
  min (sS : ℚ) (windowSizeInSamples / 2) + ((eS : ℚ) - (sS : ℚ)) +
    min ((nS : ℚ) - (eS : ℚ)) ((fftN : ℚ) / 2 - 1)

/-- Concrete options: defaults except a 1/16 s analysis window (so that
`windowSizeInSamples = 1000` at a 16 kHz sample rate). -/
def opts0 : Opts :=
  { channel := 0, windowSizeInSecs := 1/16, upperFreq := none, lowerFreq := 0,
    alpha := 16/100, dynRangeInDB := 70, preEmphasisFilterFactor := 97/100,
    transparency := 255, drawHeatMapColors := false,
    heatMapColorAnchors := [[255, 0, 0], [0, 255, 0], [0, 0, 0]], invert := false }

/-- The same options with an explicit `upperFreq: 0`. -/
def opts1 : Opts := { opts0 with upperFreq := some 0 }

/-- Concrete decoded audio: 1000 frames of silence at 16 kHz, one channel. -/
def dd0 : DecodedData := ⟨1000, 16000, [List.replicate 1000 0]⟩

/-- Concrete host snapshot whose viewport maps to the sample range [100, 200). -/
def env0 : Env :=
  { scrollLeft := 1, scrollWidth := 10, clientWidth := 1, decodedData := some dd0,
    wrapperWidth := 4, wrapperHeight := 2, devicePixelRatio := 1 }

/-- Concrete live plugin state right after attach, dirty and with no previous
range. -/
def st0 : PluginState :=
  { update_needed := true, old_sS := -1, old_eS := -1, terminated := false,
    canvasWidth := 4, canvasHeight := 2, imageData := createImageData 4 2 0,
    nextImageId := 1, options := some opts0, windowNum := 6,
    spectroWorker := some (), wrapper := some (), wavesurfer := some (),
    util := some () }

/-- `st0` with the explicit `upperFreq: 0` options. -/
def st1 : PluginState := { st0 with options := some opts1 }

/-- Concrete decoded audio with only 5 frames. -/
def dd3 : DecodedData := ⟨5, 16000, [List.replicate 5 0]⟩

/-- Concrete host snapshot with a zero-width viewport (`clientWidth = 0`), so
the computed sample range is empty: both ends map to sample 0. -/
def env3 : Env :=
  { scrollLeft := 0, scrollWidth := 1, clientWidth := 0, decodedData := some dd3,
    wrapperWidth := 4, wrapperHeight := 2, devicePixelRatio := 1 }

/-- Concrete terminated state (as left behind while a response is in flight). -/
def stT : PluginState := { st0 with terminated := true }

/-- Concrete worker response payload, three nonzero bytes. -/
def imgT : List ℕ := [7, 7, 7]

/-- The Scenario-A viewport: scrollOffset 0, scrollExtent 44100, visible width
22050 (no decoded data is needed to evaluate the mapping itself). -/
def envA : Env :=
  { scrollLeft := 0, scrollWidth := 44100, clientWidth := 22050,
    decodedData := none, wrapperWidth := 0, wrapperHeight := 0,
    devicePixelRatio := 1 }

/-- Truncation of an integer-valued rational is the integer itself. -/
theorem jsTrunc_intCast (i : ℤ) : jsTrunc (i : ℚ) = i := by
  unfold jsTrunc
  split <;> simp

/-- The subarray clamp never exceeds the buffer length. -/
theorem relIndex_le_length (len : ℕ) (q : ℚ) : relIndex len q ≤ len := by
  unfold relIndex
  split
  · omega
  · exact Nat.min_le_right _ _

/-- Clamping an in-range integer index is the identity. -/
theorem relIndex_intCast (len : ℕ) (i : ℤ) (h0 : 0 ≤ i) (hle : i ≤ (len : ℤ)) :
    relIndex len (i : ℚ) = i.toNat := by
  unfold relIndex
  rw [jsTrunc_intCast]
  rw [if_neg (by omega)]
  exact Nat.min_eq_left (by omega)

/-- Clamping an in-range natural index is the identity. -/
theorem relIndex_natCast (len n : ℕ) (h : n ≤ len) : relIndex len (n : ℚ) = n := by
  have := relIndex_intCast len n (by positivity) (by exact_mod_cast h)
  simpa using this

/-- Clamping a nonnegative rational whose floor is in range truncates to the
floor. -/
theorem relIndex_nonneg (len : ℕ) (q : ℚ) (h0 : 0 ≤ q) (hle : ⌊q⌋ ≤ (len : ℤ)) :
    relIndex len q = ⌊q⌋.toNat := by
  unfold relIndex jsTrunc
  rw [if_pos h0]
  have hf : 0 ≤ ⌊q⌋ := Int.le_floor.mpr (by exact_mod_cast h0)
  rw [if_neg (by omega)]
  exact Nat.min_eq_left (by omega)

/-- Length of a subarray is the difference of the clamped indices. -/
theorem subarray_length (buf : List ℚ) (a b : ℚ) :
    (subarray buf a b).length = relIndex buf.length b - relIndex buf.length a := by
  unfold subarray
  rw [List.length_drop, List.length_take]
  have := relIndex_le_length buf.length b
  omega

/-- The exponent loop returns the least exponent at least `cur` whose power of
two reaches `num`, provided the fuel suffices and all exponents below `cur`
fall short. -/
theorem pow2SearchAux_spec (num : ℚ) :
    ∀ fuel cur, num ≤ 2 ^ (cur + fuel) → (∀ j, j < cur → (2 : ℚ) ^ j < num) →
      num ≤ 2 ^ pow2SearchAux num fuel cur ∧
        ∀ k, num ≤ (2 : ℚ) ^ k → pow2SearchAux num fuel cur ≤ k := by
  intro fuel
  induction fuel with
  | zero =>
    intro cur h1 h2
    simp only [pow2SearchAux]
    refine ⟨by simpa using h1, fun k hk => ?_⟩
    by_contra hcon
    exact absurd hk (not_le.mpr (h2 k (by omega)))
  | succ n ih =>
    intro cur h1 h2
    by_cases hc : (2 : ℚ) ^ cur < num
    · rw [pow2SearchAux, if_pos hc]
      refine ih (cur + 1) (by rw [show cur + 1 + n = cur + (n + 1) by omega]; exact h1) ?_
      intro j hj
      rcases Nat.lt_succ_iff_lt_or_eq.mp hj with h | h
      · exact h2 j h
      · subst h; exact hc
    · rw [pow2SearchAux, if_neg hc]
      refine ⟨not_lt.mp hc, fun k hk => ?_⟩
      by_contra hcon
      exact absurd hk (not_le.mpr (h2 k (by omega)))

/-- Every rational is at most two to the successor of its numerator. -/
theorem num_le_two_pow (num : ℚ) : num ≤ 2 ^ (num.num.toNat + 1) := by
  rcases le_or_lt num 0 with h | h
  · exact h.trans (by positivity)
  · have hnum : 0 < num.num := Rat.num_pos.mpr h
    have hnn : (0 : ℚ) ≤ (num.num : ℚ) := by exact_mod_cast hnum.le
    have h1 : num ≤ (num.num : ℚ) := by
      have hden : (1 : ℚ) ≤ (num.den : ℚ) := by
        exact_mod_cast Nat.one_le_iff_ne_zero.mpr num.den_nz
      have := div_le_self hnn hden
      rwa [Rat.num_div_den] at this
    have h2 : (num.num : ℚ) = ((num.num.toNat : ℕ) : ℚ) := by
      exact_mod_cast (Int.toNat_of_nonneg hnum.le).symm
    have h3 : ((num.num.toNat : ℕ) : ℚ) ≤ 2 ^ num.num.toNat := by
      exact_mod_cast (Nat.lt_two_pow num.num.toNat).le
    calc num ≤ ((num.num.toNat : ℕ) : ℚ) := h2 ▸ h1
      _ ≤ 2 ^ num.num.toNat := h3
      _ ≤ 2 ^ (num.num.toNat + 1) := by
          exact pow_le_pow_right₀ (by norm_num) (Nat.le_succ _)

/-- `calcClosestPowerOf2Gt` reaches its argument and is the least power of two
doing so. -/
theorem calcClosestPowerOf2Gt_spec (num : ℚ) :
    num ≤ (calcClosestPowerOf2Gt num : ℚ) ∧
      ∀ k : ℕ, num ≤ (2 : ℚ) ^ k → calcClosestPowerOf2Gt num ≤ 2 ^ k := by
  have h := pow2SearchAux_spec num (num.num.toNat + 1) 0
    (by simpa using num_le_two_pow num) (by omega)
  constructor
  · unfold calcClosestPowerOf2Gt
    push_cast
    exact h.1
  · intro k hk
    exact Nat.pow_le_pow_right (by norm_num) (h.2 k hk)

/-- No branch of `render` both posts a request and schedules the next tick:
the submitting branch is the only one that does not call
`requestAnimationFrame`. -/
theorem render_no_sched (env : Env) (s : PluginState) :
    ((render env s).result.submittedReq.isSome && (render env s).scheduledNext) = false := by
  unfold render
  repeat (first | rfl | split)

/-- Inversion of a submitting tick: all guards were passed, the dirty flag was
cleared, the computed range was stored, the canvas was resized, and the
request is exactly the one built from the current environment. -/
theorem render_submitted_inv (env : Env) (s : PluginState) (req : RenderRequest)
    (h : (render env s).result = .submitted req) :
    s.terminated = false ∧ s.update_needed = true ∧ s.wavesurfer = some () ∧
    ∃ dd opts, env.decodedData = some dd ∧ s.wrapper = some () ∧
      s.options = some opts ∧ s.spectroWorker = some () ∧
      ¬(rangeStart env dd.length = s.old_sS ∧ rangeEnd env dd.length = s.old_eS) ∧
      req = buildRequest env dd opts s.windowNum env.wrapperWidth env.wrapperHeight
        (rangeStart env dd.length) (rangeEnd env dd.length) ∧
      render env s =
        ⟨{ s with update_needed := false, old_sS := rangeStart env dd.length,
                  old_eS := rangeEnd env dd.length, canvasHeight := env.wrapperHeight,
                  canvasWidth := env.wrapperWidth },
          .submitted req, false⟩ := by
  by_cases ht : s.terminated = true
  · simp [render, ht] at h
  by_cases hu : s.update_needed = false
  · simp [render, ht, hu] at h
  rcases hws : s.wavesurfer with _ | ⟨⟩
  · simp [render, ht, hu, hws] at h
  rcases hdd : env.decodedData with _ | dd
  · simp [render, ht, hu, hws, hdd] at h
  by_cases hr : rangeStart env dd.length = s.old_sS ∧ rangeEnd env dd.length = s.old_eS
  · simp [render, ht, hu, hws, hdd, hr] at h
  rcases hwr : s.wrapper with _ | ⟨⟩
  · simp [render, ht, hu, hws, hdd, hr, hwr] at h
  rcases hop : s.options with _ | opts
  · simp [render, ht, hu, hws, hdd, hr, hwr, hop] at h
  rcases hsw : s.spectroWorker with _ | ⟨⟩
  · simp [render, ht, hu, hws, hdd, hr, hwr, hop, hsw] at h
  have hreq : req = buildRequest env dd opts s.windowNum env.wrapperWidth
      env.wrapperHeight (rangeStart env dd.length) (rangeEnd env dd.length) := by
    simp [render, ht, hu, hws, hdd, hr, hwr, hop, hsw] at h
    exact h.symm
  subst hreq
  refine ⟨by simpa using ht, by simpa using hu, rfl, dd, opts, rfl, rfl, rfl, rfl,
    hr, rfl, ?_⟩
  simp [render, ht, hu, hws, hdd, hr, hwr, hop, hsw]

/-- When every guard passes, the tick submits the request built from the
current environment and stores the computed range. -/
theorem render_submits (env : Env) (s : PluginState) (dd : DecodedData) (opts : Opts)
    (ht : s.terminated = false) (hu : s.update_needed = true)
    (hws : s.wavesurfer = some ()) (hdd : env.decodedData = some dd)
    (hr : ¬(rangeStart env dd.length = s.old_sS ∧ rangeEnd env dd.length = s.old_eS))
    (hwr : s.wrapper = some ()) (hop : s.options = some opts)
    (hsw : s.spectroWorker = some ()) :
    render env s =
      ⟨{ s with update_needed := false, old_sS := rangeStart env dd.length,
                old_eS := rangeEnd env dd.length, canvasHeight := env.wrapperHeight,
                canvasWidth := env.wrapperWidth },
        .submitted (buildRequest env dd opts s.windowNum env.wrapperWidth
          env.wrapperHeight (rangeStart env dd.length) (rangeEnd env dd.length)),
        false⟩ := by
  simp [render, ht, hu, hws, hdd, hr, hwr, hop, hsw]

/-- Claim C6: running the tick twice with no intermediate change submits at
most one request, and even if the dirty flag is set again in between, a second
tick that recomputes the same viewport range is skipped by the range-equality
check: in neither case do two consecutive ticks both submit. -/
theorem c6_tick_idempotent (env : Env) (s : PluginState) :
    (((render env s).result.submittedReq.isSome &&
        (render env (render env s).state).result.submittedReq.isSome) = false) ∧
    (((render env s).result.submittedReq.isSome &&
        (render env
          { (render env s).state with update_needed := true }).result.submittedReq.isSome) =
      false) := by
  rcases hres : (render env s).result with _ | req | _
  · simp [hres, TickResult.submittedReq]
  · obtain ⟨ht, hu, hws, dd, opts, hdd, hwr, hop, hsw, hr, hreq, heq⟩ :=
      render_submitted_inv env s req hres
    constructor
    · rw [heq]
      simp [render, ht, TickResult.submittedReq]
    · rw [heq]
      simp [render, ht, hws, hdd, TickResult.submittedReq]
  · simp [hres, TickResult.submittedReq]

/-- A tick on a terminated state is a pure no-op that schedules nothing. -/
theorem render_terminated (env : Env) (x : PluginState) (hx : x.terminated = true) :
    render env x = ⟨x, .idle, false⟩ := by
  unfold render
  rw [if_pos hx]

/-- The copy step never changes the terminated flag. -/
theorem respWrite_terminated (s1 : PluginState) (img : List ℕ) :
    (respWrite s1 img).1.terminated = s1.terminated := by
  unfold respWrite
  split <;> rfl

/-- The response callback never changes the terminated flag. -/
theorem handleResponse_terminated (s : PluginState) (img : List ℕ) :
    (handleResponse s img).1.terminated = s.terminated := by
  unfold handleResponse
  split <;> rw [respWrite_terminated]

/-- Outcome of the copy step, as a function of the buffer size only. -/
theorem respWrite_snd (s1 : PluginState) (img : List ℕ) :
    (respWrite s1 img).2 =
      if img.length ≤ s1.imageData.data.length then
        ⟨true, true, false⟩
      else ⟨false, false, true⟩ := by
  unfold respWrite
  split <;> rfl

/-- Image buffer after the copy step. -/
theorem respWrite_imageData (s1 : PluginState) (img : List ℕ) :
    (respWrite s1 img).1.imageData =
      if img.length ≤ s1.imageData.data.length then
        { s1.imageData with data := img ++ s1.imageData.data.drop img.length }
      else s1.imageData := by
  unfold respWrite
  split <;> rfl

/-- The copy step never changes the allocation counter. -/
theorem respWrite_nextImageId (s1 : PluginState) (img : List ℕ) :
    (respWrite s1 img).1.nextImageId = s1.nextImageId := by
  unfold respWrite
  split <;> rfl

/-- Claim C2: from a submission until its response, no further tick is queued.
In every reachable system state at most one of an in-flight request and a
queued tick exists (so at most one request is ever in flight), and no branch
of the tick both submits and schedules: only the response callback schedules
the tick that follows a submission. -/
theorem c2_single_in_flight (sys : Sys) (h : Reachable sys) :
    sys.pending + sys.queued ≤ 1 ∧
      ∀ (env : Env) (ps : PluginState),
        ((render env ps).result.submittedReq.isSome && (render env ps).scheduledNext) =
          false := by
  refine ⟨?_, fun env ps => render_no_sched env ps⟩
  induction h with
  | init s0 => simp
  | step ha hs ih =>
    rename_i a b
    cases hs with
    | tick env hq =>
      have hb := render_no_sched env a.ps
      have hab : (if (render env a.ps).result.submittedReq.isSome then 1 else 0) +
          (if (render env a.ps).scheduledNext then 1 else 0) ≤ 1 := by
        cases hsub : (render env a.ps).result.submittedReq.isSome <;>
          cases hsch : (render env a.ps).scheduledNext <;>
            simp_all
      dsimp only
      omega
    | response img hp =>
      have hone : (if (handleResponse a.ps img).2.scheduledNext then 1 else 0) ≤ 1 := by
        split <;> omega
      dsimp only
      omega
    | hostEvent => simpa using ih
    | detach => simpa using ih

/-- Witness for C2 at the attach-time system state. -/
theorem c2_single_in_flight_witness :
    ({ ps := st0, pending := 0, queued := 1 } : Sys).pending +
      ({ ps := st0, pending := 0, queued := 1 } : Sys).queued ≤ 1 :=
  (c2_single_in_flight { ps := st0, pending := 0, queued := 1 }
    (Reachable.init st0)).1

/-- Claim C1, amended: for a valid range the padded buffer length is
`leftPad + (endSample - startSample) + rightPad` where the paddings are
all-or-nothing, not minima: `leftPad` is `ceil(windowSizeInSamples/2)` when
`startSample > windowSizeInSamples/2` and `0` otherwise (so `startSample = 0`
gives `leftPad = 0`, but `startSample = 100` with `windowSizeInSamples = 1000`
also gives `leftPad = 0`, not `100`), and `rightPad` is `fftSize/2 - 1` when
`endSample + fftSize/2 - 1 < totalSamples` and `0` otherwise (so
`endSample = totalSamples` gives `rightPad = 0`). -/
theorem c1_padded_length_amended (buffer : List ℚ) (sS eS : ℕ) (w : ℚ) (fftN : ℕ)
    (h1 : sS ≤ eS) (h2 : eS ≤ buffer.length) (hw : 0 ≤ w) (hev : 2 ∣ fftN)
    (hf : 2 ≤ fftN) :
    (paddedSamplesOf buffer (sS : ℤ) (eS : ℤ) w fftN).length =
      (if w / 2 < (sS : ℚ) then (⌈w / 2⌉).toNat else 0) + (eS - sS) +
      (if (eS : ℚ) + (fftN : ℚ) / 2 - 1 < (buffer.length : ℚ) then fftN / 2 - 1
       else 0) := by
  obtain ⟨m, rfl⟩ := hev
  have hm : 1 ≤ m := by omega
  have hsSlen : sS ≤ buffer.length := le_trans h1 h2
  have hdata : (subarray buffer (sS : ℚ) (eS : ℚ)).length = eS - sS := by
    rw [subarray_length, relIndex_natCast _ _ h2, relIndex_natCast _ _ hsSlen]
  have hleft : w / 2 < (sS : ℚ) →
      (subarray buffer ((sS : ℚ) - w / 2) (sS : ℚ)).length = (⌈w / 2⌉).toNat := by
    intro hc
    have hw2 : (0 : ℚ) ≤ w / 2 := by positivity
    have hceil0 : (0 : ℤ) ≤ ⌈w / 2⌉ := Int.ceil_nonneg hw2
    have hceil : ⌈w / 2⌉ ≤ (sS : ℤ) := by
      rw [Int.ceil_le]
      push_cast
      exact hc.le
    have hfloor : ⌊(sS : ℚ) - w / 2⌋ = (sS : ℤ) - ⌈w / 2⌉ := by
      have he2 : (sS : ℚ) - w / 2 = -(w / 2) + ((sS : ℤ) : ℚ) := by push_cast; ring
      rw [he2, Int.floor_add_int, Int.floor_neg]
      ring
    have hnn : (0 : ℚ) ≤ (sS : ℚ) - w / 2 := by linarith
    have hle2 : ⌊(sS : ℚ) - w / 2⌋ ≤ (buffer.length : ℤ) := by
      rw [hfloor]
      have hsl : (sS : ℤ) ≤ (buffer.length : ℤ) := by exact_mod_cast hsSlen
      omega
    rw [subarray_length, relIndex_natCast _ _ hsSlen, relIndex_nonneg _ _ hnn hle2,
        hfloor]
    omega
  have hright : (eS : ℚ) + 2 * (m : ℚ) / 2 - 1 < (buffer.length : ℚ) →
      (subarray buffer (eS : ℚ) ((eS : ℚ) + 2 * (m : ℚ) / 2 - 1)).length = m - 1 := by
    intro hr
    have he : (eS : ℚ) + 2 * (m : ℚ) / 2 - 1 = (((eS : ℤ) + (m : ℤ) - 1 : ℤ) : ℚ) := by
      push_cast
      ring
    have hm2 : (1 : ℤ) ≤ (m : ℤ) := by exact_mod_cast hm
    have h0 : (0 : ℤ) ≤ (eS : ℤ) + m - 1 := by omega
    have hle3 : (eS : ℤ) + m - 1 ≤ (buffer.length : ℤ) := by
      have hlt : (((eS : ℤ) + (m : ℤ) - 1 : ℤ) : ℚ) < (buffer.length : ℚ) := by
        rw [← he]
        exact hr
      have : ((eS : ℤ) + (m : ℤ) - 1 : ℤ) < (buffer.length : ℤ) := by exact_mod_cast hlt
      omega
    rw [he, subarray_length, relIndex_intCast _ _ h0 hle3, relIndex_natCast _ _ h2]
    omega
  simp only [paddedSamplesOf, List.length_append]
  push_cast
  by_cases hc : w / 2 < (sS : ℚ) <;>
    by_cases hr : (eS : ℚ) + 2 * (m : ℚ) / 2 - 1 < (buffer.length : ℚ)
  · simp only [if_pos hc, if_pos hr, hdata, hleft hc, hright hr]
    omega
  · simp only [if_pos hc, if_neg hr, hdata, hleft hc, List.length_nil]
  · simp only [if_neg hc, if_pos hr, hdata, hright hr, List.length_nil]
    omega
  · simp only [if_neg hc, if_neg hr, hdata, List.length_nil]

/-- The loop result is pinned down by reaching the target at `k` while all
smaller exponents fall short. -/
theorem calcClosestPowerOf2Gt_eq (num : ℚ) (k : ℕ) (hup : num ≤ 2 ^ k)
    (hlow : ∀ j, j < k → (2 : ℚ) ^ j < num) : calcClosestPowerOf2Gt num = 2 ^ k := by
  have h := pow2SearchAux_spec num (num.num.toNat + 1) 0
    (by simpa using num_le_two_pow num) (by omega)
  have haux : pow2SearchAux num (num.num.toNat + 1) 0 = k := by
    have hle : pow2SearchAux num (num.num.toNat + 1) 0 ≤ k := h.2 k hup
    have hnlt : ¬pow2SearchAux num (num.num.toNat + 1) 0 < k := by
      intro hlt
      exact absurd h.1 (not_le.mpr (hlow _ hlt))
    omega
  unfold calcClosestPowerOf2Gt
  rw [haux]

/-- Scenario B evaluated: 16000 × (1/200) = 80, raised to 128, floored to 512. -/
theorem fftN_scenarioB : fftNOf 16000 (1 / 200) = 512 := by
  have h : calcClosestPowerOf2Gt (16000 * (1 / 200)) = 2 ^ 7 := by
    apply calcClosestPowerOf2Gt_eq
    · norm_num
    · intro j hj
      interval_cases j <;> norm_num
  simp only [fftNOf, h]
  norm_num

/-- The fft size for the concrete 16 kHz / (1/16) s configuration: target 1000,
raised to 1024 (already above 512). -/
theorem fftN_env0 : fftNOf 16000 (1 / 16) = 1024 := by
  have h : calcClosestPowerOf2Gt (16000 * (1 / 16)) = 2 ^ 10 := by
    apply calcClosestPowerOf2Gt_eq
    · norm_num
    · intro j hj
      interval_cases j <;> norm_num
  simp only [fftNOf, h]
  norm_num

/-- Concrete viewport mapping for `env0`: start sample 100. -/
theorem rangeStart_env0 : rangeStart env0 dd0.length = 100 := by
  have h : env0.scrollLeft / env0.scrollWidth * ((dd0.length : ℕ) : ℚ) =
      ((100 : ℤ) : ℚ) := by
    simp only [env0, dd0]
    norm_num
  unfold rangeStart
  rw [h, Int.floor_intCast]

/-- Concrete viewport mapping for `env0`: end sample 200. -/
theorem rangeEnd_env0 : rangeEnd env0 dd0.length = 200 := by
  have h : (env0.scrollLeft + env0.clientWidth) / env0.scrollWidth *
      ((dd0.length : ℕ) : ℚ) = ((200 : ℤ) : ℚ) := by
    simp only [env0, dd0]
    norm_num
  unfold rangeEnd
  rw [h, Int.floor_intCast]

/-- Concrete viewport mapping for `env3`: start sample 0. -/
theorem rangeStart_env3 : rangeStart env3 dd3.length = 0 := by
  have h : env3.scrollLeft / env3.scrollWidth * ((dd3.length : ℕ) : ℚ) =
      ((0 : ℤ) : ℚ) := by
    simp only [env3, dd3]
    norm_num
  unfold rangeStart
  rw [h, Int.floor_intCast]

/-- Concrete viewport mapping for `env3`: end sample 0 (zero-width viewport). -/
theorem rangeEnd_env3 : rangeEnd env3 dd3.length = 0 := by
  have h : (env3.scrollLeft + env3.clientWidth) / env3.scrollWidth *
      ((dd3.length : ℕ) : ℚ) = ((0 : ℤ) : ℚ) := by
    simp only [env3, dd3]
    norm_num
  unfold rangeEnd
  rw [h, Int.floor_intCast]

/-- Scenario A evaluated: start sample 0. -/
theorem rangeStart_envA : rangeStart envA 44100 = 0 := by
  have h : envA.scrollLeft / envA.scrollWidth * ((44100 : ℕ) : ℚ) =
      ((0 : ℤ) : ℚ) := by
    simp only [envA]
    norm_num
  unfold rangeStart
  rw [h, Int.floor_intCast]

/-- Scenario A evaluated: end sample 22050. -/
theorem rangeEnd_envA : rangeEnd envA 44100 = 22050 := by
  have h : (envA.scrollLeft + envA.clientWidth) / envA.scrollWidth *
      ((44100 : ℕ) : ℚ) = ((22050 : ℤ) : ℚ) := by
    simp only [envA]
    norm_num
  unfold rangeEnd
  rw [h, Int.floor_intCast]

/-- For `env0`/`st0` the computed range (100, 200) differs from the stored
previous range (-1, -1). -/
theorem env0_st0_neq :
    ¬(rangeStart env0 dd0.length = st0.old_sS ∧ rangeEnd env0 dd0.length = st0.old_eS) := by
  intro hab
  have ha := hab.1
  rw [rangeStart_env0] at ha
  simp [st0] at ha

/-- For `env3`/`st0` the computed range (0, 0) differs from the stored
previous range (-1, -1). -/
theorem env3_st0_neq :
    ¬(rangeStart env3 dd3.length = st0.old_sS ∧ rangeEnd env3 dd3.length = st0.old_eS) := by
  intro hab
  have ha := hab.1
  rw [rangeStart_env3] at ha
  simp [st0] at ha

/-- Concrete padded-buffer length for the counterexample parameters: left
padding 0, visible part 100, right padding 511. -/
theorem paddedLen_concrete :
    (paddedSamplesOf (List.replicate 1000 (0 : ℚ)) (100 : ℤ) 200 1000 1024).length =
      611 := by
  have hlen : (List.replicate 1000 (0 : ℚ)).length = 1000 := by simp
  have he : ((200 : ℤ) : ℚ) + ((1024 : ℕ) : ℚ) / 2 - 1 = ((711 : ℤ) : ℚ) := by
    norm_num
  simp only [paddedSamplesOf]
  rw [if_neg (by norm_num), if_pos (by rw [hlen]; norm_num)]
  rw [List.length_append, List.length_append, List.length_nil]
  rw [he, subarray_length, subarray_length, hlen]
  rw [relIndex_intCast 1000 100 (by norm_num) (by norm_num),
      relIndex_intCast 1000 200 (by norm_num) (by norm_num),
      relIndex_intCast 1000 711 (by norm_num) (by norm_num)]
  omega

/-- Claim C1 counterexample: at startSample = 100, endSample = 200,
windowSizeInSamples = 1000, fftSize = 1024, totalSamples = 1000 (the request
actually submitted for `env0`/`st0`), the code builds a padded buffer of 611
samples (left padding 0, since 100 is not greater than 500), while the
claimed formula yields min(100,500) + 100 + min(800,511) = 711 > 611. -/
theorem c1_counterexample :
    ((render env0 st0).result.submittedReq.map (fun r => r.audioBuffer.length)) =
        some 611 ∧
      specPaddedLen 100 200 1000 1000 1024 = 711 ∧ (611 : ℚ) < 711 := by
  refine ⟨?_, ?_, by norm_num⟩
  · rw [render_submits env0 st0 dd0 opts0 rfl rfl rfl rfl env0_st0_neq rfl rfl rfl]
    simp only [TickResult.submittedReq, Option.map_some]
    rw [rangeStart_env0, rangeEnd_env0]
    simp only [buildRequest, dd0, opts0, List.getD, fftN_env0]
    have hws : (1 / 16 : ℚ) * 16000 = 1000 := by norm_num
    rw [hws]
    simp only [List.get?_cons_zero, Option.getD_some, Option.map_some', Option.some.injEq]
    exact paddedLen_concrete
  · simp only [specPaddedLen]
    rw [min_eq_left (by norm_num), min_eq_right (by norm_num)]
    norm_num

/-- Witness for the amended C1 at the counterexample parameters. -/
theorem c1_padded_length_witness :
    (paddedSamplesOf (List.replicate 1000 (0 : ℚ)) (100 : ℤ) 200 1000 1024).length =
      611 ∧ (100 : ℕ) ≤ 200 := by
  have h := c1_padded_length_amended (List.replicate 1000 (0 : ℚ)) 100 200 1000 1024
    (by norm_num) (by simp) (by norm_num) ⟨512, rfl⟩ (by norm_num)
  norm_num at h
  exact ⟨by exact_mod_cast h, by norm_num⟩

/-- Claim C5: the fft size is a power of two, at least 512, and at least the
smallest power of two reaching sampleRate × windowSizeInSeconds (which
`calcClosestPowerOf2Gt` computes: it reaches the target and is minimal among
powers of two that do); Scenario B: 16000 × 0.005 = 80 gives 512. -/
theorem c5_fft_size (sr ws : ℚ) :
    (∃ k : ℕ, fftNOf sr ws = 2 ^ k) ∧ 512 ≤ fftNOf sr ws ∧
      calcClosestPowerOf2Gt (sr * ws) ≤ fftNOf sr ws ∧
      sr * ws ≤ (calcClosestPowerOf2Gt (sr * ws) : ℚ) ∧
      (∀ k : ℕ, sr * ws ≤ (2 : ℚ) ^ k → calcClosestPowerOf2Gt (sr * ws) ≤ 2 ^ k) ∧
      fftNOf 16000 (1 / 200) = 512 := by
  have hspec := calcClosestPowerOf2Gt_spec (sr * ws)
  refine ⟨?_, ?_, ?_, hspec.1, hspec.2, fftN_scenarioB⟩
  · simp only [fftNOf]
    by_cases hlt : calcClosestPowerOf2Gt (sr * ws) < 512
    · rw [if_pos hlt]
      exact ⟨9, by norm_num⟩
    · rw [if_neg hlt]
      exact ⟨pow2SearchAux (sr * ws) ((sr * ws).num.toNat + 1) 0, rfl⟩
  · simp only [fftNOf]
    by_cases hlt : calcClosestPowerOf2Gt (sr * ws) < 512
    · rw [if_pos hlt]
    · rw [if_neg hlt]
      exact not_lt.mp hlt
  · simp only [fftNOf]
    by_cases hlt : calcClosestPowerOf2Gt (sr * ws) < 512
    · rw [if_pos hlt]
      exact le_of_lt hlt
    · rw [if_neg hlt]

/-- Witness for C5: Scenario B evaluated, and minimality applied at exponent 9. -/
theorem c5_fft_size_witness :
    fftNOf 16000 (1 / 200) = 512 ∧
      calcClosestPowerOf2Gt (16000 * (1 / 200)) ≤ 2 ^ 9 :=
  ⟨(c5_fft_size 16000 (1 / 200)).2.2.2.2.2,
   (c5_fft_size 16000 (1 / 200)).2.2.2.2.1 9 (by norm_num)⟩

/-- Claim C3 counterexample: for the zero-width viewport `env3` the computed
range is empty (endSample = startSample = 0), yet the tick submits a request
to the worker instead of skipping. -/
theorem c3_counterexample :
    rangeEnd env3 dd3.length ≤ rangeStart env3 dd3.length ∧
      (render env3 st0).result.submittedReq.isSome = true := by
  constructor
  · rw [rangeStart_env3, rangeEnd_env3]
  · rw [render_submits env3 st0 dd3 opts0 rfl rfl rfl rfl env3_st0_neq rfl rfl rfl]
    rfl

/-- Claim C3, amended: `render` performs no empty-range check at all.  A tick
whose computed range is empty (endSample ≤ startSample) still submits a
request whenever the dirty, data-availability and range-changed gates pass;
only those gates (and termination) suppress submission. -/
theorem c3_empty_range_submits_amended (env : Env) (s : PluginState)
    (dd : DecodedData) (opts : Opts) (hdd : env.decodedData = some dd)
    (ht : s.terminated = false) (hu : s.update_needed = true)
    (hws : s.wavesurfer = some ()) (hwr : s.wrapper = some ())
    (hop : s.options = some opts) (hsw : s.spectroWorker = some ())
    (hr : ¬(rangeStart env dd.length = s.old_sS ∧ rangeEnd env dd.length = s.old_eS))
    (_hempty : rangeEnd env dd.length ≤ rangeStart env dd.length) :
    (render env s).result.submittedReq.isSome = true := by
  rw [render_submits env s dd opts ht hu hws hdd hr hwr hop hsw]
  rfl

/-- Witness for the amended C3 at the concrete empty-range configuration. -/
theorem c3_empty_range_witness :
    (render env3 st0).result.submittedReq.isSome = true := by
  apply c3_empty_range_submits_amended env3 st0 dd3 opts0 rfl rfl rfl rfl rfl rfl rfl
    env3_st0_neq
  rw [rangeStart_env3, rangeEnd_env3]

/-- Claim C4 counterexample: a response handed to the callback while the state
is terminated is still fully processed: the image is blitted, the next tick is
scheduled, and the image buffer bytes are rewritten. -/
theorem c4_counterexample :
    stT.terminated = true ∧ (handleResponse stT imgT).2.blitted = true ∧
      (handleResponse stT imgT).2.scheduledNext = true ∧
      decide ((handleResponse stT imgT).1.imageData.data = stT.imageData.data) =
        false := by
  refine ⟨rfl, by decide, by decide, by decide⟩

/-- Claim C4, amended: the response callback contains no termination check, so
a response arriving after termination is processed exactly as before
termination (same outcome, same image buffer mutation) and the next tick is
scheduled; discarding happens only at that next tick, which returns
immediately (scheduling and submitting nothing) because `render` checks the
terminated flag first.  In practice `destroy` also kills the worker, which is
what prevents late responses. -/
theorem c4_late_response_amended (env : Env) (s : PluginState) (img : List ℕ)
    (ht : s.terminated = true) :
    (handleResponse s img).2 = (handleResponse { s with terminated := false } img).2 ∧
      (handleResponse s img).1.imageData =
        (handleResponse { s with terminated := false } img).1.imageData ∧
      (handleResponse s img).1.terminated = true ∧
      render env (handleResponse s img).1 =
        ⟨(handleResponse s img).1, .idle, false⟩ := by
  have hterm : (handleResponse s img).1.terminated = true := by
    rw [handleResponse_terminated]
    exact ht
  refine ⟨?_, ?_, hterm, render_terminated env _ hterm⟩
  · unfold handleResponse
    dsimp only
    by_cases hc : s.imageData.width ≠ s.canvasWidth ∨ s.imageData.height ≠ s.canvasHeight
    · rw [if_pos hc, if_pos hc, respWrite_snd, respWrite_snd]
    · rw [if_neg hc, if_neg hc, respWrite_snd, respWrite_snd]
  · unfold handleResponse
    dsimp only
    by_cases hc : s.imageData.width ≠ s.canvasWidth ∨ s.imageData.height ≠ s.canvasHeight
    · rw [if_pos hc, if_pos hc, respWrite_imageData, respWrite_imageData]
    · rw [if_neg hc, if_neg hc, respWrite_imageData, respWrite_imageData]

/-- Witness for the amended C4 at the concrete terminated state. -/
theorem c4_late_response_witness :
    (handleResponse stT imgT).2 =
        (handleResponse { stT with terminated := false } imgT).2 ∧
      render env0 (handleResponse stT imgT).1 =
        ⟨(handleResponse stT imgT).1, .idle, false⟩ :=
  ⟨(c4_late_response_amended env0 stT imgT rfl).1,
   (c4_late_response_amended env0 stT imgT rfl).2.2.2⟩

/-- Claim C7: a submitting tick stores exactly
startSample = floor(scrollOffset / scrollExtent × totalSamples) and
endSample = floor((scrollOffset + visibleWidth) / scrollExtent × totalSamples),
and Scenario A (offset 0, extent 44100, visible 22050, 44100 samples) maps to
the range (0, 22050). -/
theorem c7_viewport_mapping :
    (∀ (env : Env) (s : PluginState) (dd : DecodedData) (req : RenderRequest),
        env.decodedData = some dd → (render env s).result = .submitted req →
        (render env s).state.old_sS =
            ⌊env.scrollLeft / env.scrollWidth * (dd.length : ℚ)⌋ ∧
          (render env s).state.old_eS =
            ⌊(env.scrollLeft + env.clientWidth) / env.scrollWidth * (dd.length : ℚ)⌋) ∧
      rangeStart envA 44100 = 0 ∧ rangeEnd envA 44100 = 22050 := by
  refine ⟨?_, rangeStart_envA, rangeEnd_envA⟩
  intro env s dd req hdd hsub
  obtain ⟨ht, hu, hws, dd2, opts, hdd2, hwr, hop, hsw, hr, hreq, heq⟩ :=
    render_submitted_inv env s req hsub
  rw [hdd] at hdd2
  injection hdd2 with hdde
  subst hdde
  rw [heq]
  exact ⟨rfl, rfl⟩

/-- Witness for C7 at the concrete submitting configuration. -/
theorem c7_viewport_mapping_witness :
    (render env0 st0).state.old_sS = 100 ∧ (render env0 st0).state.old_eS = 200 := by
  have hrend := render_submits env0 st0 dd0 opts0 rfl rfl rfl rfl env0_st0_neq rfl rfl rfl
  have hsub : (render env0 st0).result = .submitted (buildRequest env0 dd0 opts0
      st0.windowNum env0.wrapperWidth env0.wrapperHeight (rangeStart env0 dd0.length)
      (rangeEnd env0 dd0.length)) := by rw [hrend]
  have h := (c7_viewport_mapping).1 env0 st0 dd0 _ rfl hsub
  exact ⟨h.1.trans rangeStart_env0, h.2.trans rangeEnd_env0⟩

/-- Claim C8 counterexample: a first destroy on a fresh instance succeeds, but
a second destroy on the already-destroyed state throws (a TypeError at
`this.spectroWorker.kill()`, since the worker reference was nulled), so
destroy is not idempotent. -/
theorem c8_counterexample :
    destroy st0 = .ok (destroyState st0) ∧
      destroy (destroyState st0) = .error () :=
  ⟨rfl, rfl⟩

/-- Claim C8, amended: a single destroy on a live instance (worker reference
present) completes without throwing — whether or not a request is in flight —
and leaves the state terminated; destroy is not idempotent, because a second
call throws on the nulled worker reference. -/
theorem c8_destroy_amended (s : PluginState) (h : s.spectroWorker = some ()) :
    destroy s = .ok (destroyState s) ∧ (destroyState s).terminated = true ∧
      destroy (destroyState s) = .error () := by
  refine ⟨?_, rfl, rfl⟩
  unfold destroy
  rw [h]

/-- Witness for the amended C8 at the concrete fresh state. -/
theorem c8_destroy_witness :
    destroy st0 = .ok (destroyState st0) ∧ (destroyState st0).terminated = true :=
  ⟨(c8_destroy_amended st0 rfl).1, (c8_destroy_amended st0 rfl).2.1⟩

/-- The copy step keeps the allocation identity of the buffer. -/
theorem respWrite_allocId (s1 : PluginState) (img : List ℕ) :
    (respWrite s1 img).1.imageData.allocId = s1.imageData.allocId := by
  unfold respWrite
  split <;> rfl

/-- The copy step keeps the buffer width. -/
theorem respWrite_width (s1 : PluginState) (img : List ℕ) :
    (respWrite s1 img).1.imageData.width = s1.imageData.width := by
  unfold respWrite
  split <;> rfl

/-- The copy step keeps the buffer height. -/
theorem respWrite_height (s1 : PluginState) (img : List ℕ) :
    (respWrite s1 img).1.imageData.height = s1.imageData.height := by
  unfold respWrite
  split <;> rfl

/-- The copy step keeps the byte count of the buffer. -/
theorem respWrite_dataLength (s1 : PluginState) (img : List ℕ) :
    (respWrite s1 img).1.imageData.data.length = s1.imageData.data.length := by
  unfold respWrite
  split
  · rename_i h
    simp only [List.length_append, List.length_drop]
    omega
  · rfl

/-- Claim C9: across a response-handling step the image buffer is reallocated
(fresh allocation identity, new dimensions and w×h×4 bytes) exactly when the
canvas dimensions at response time differ from those of the buffer; when they agree,
the very same buffer instance is kept (same identity, dimensions and
allocation counter) and only its bytes are written in place. -/
theorem c9_image_buffer_reuse (s : PluginState) (img : List ℕ)
    (halloc : s.imageData.allocId < s.nextImageId) :
    (((handleResponse s img).1.imageData.allocId = s.imageData.allocId) ↔
        (s.imageData.width = s.canvasWidth ∧ s.imageData.height = s.canvasHeight)) ∧
      ((s.imageData.width = s.canvasWidth ∧ s.imageData.height = s.canvasHeight) →
        (handleResponse s img).1.imageData.width = s.imageData.width ∧
          (handleResponse s img).1.imageData.height = s.imageData.height ∧
          (handleResponse s img).1.nextImageId = s.nextImageId) ∧
      (¬(s.imageData.width = s.canvasWidth ∧ s.imageData.height = s.canvasHeight) →
        (handleResponse s img).1.imageData.allocId = s.nextImageId ∧
          (handleResponse s img).1.imageData.width = s.canvasWidth ∧
          (handleResponse s img).1.imageData.height = s.canvasHeight ∧
          (handleResponse s img).1.imageData.data.length =
            s.canvasWidth * s.canvasHeight * 4) := by
  by_cases hdim : s.imageData.width = s.canvasWidth ∧ s.imageData.height = s.canvasHeight
  · have hcond : ¬(s.imageData.width ≠ s.canvasWidth ∨ s.imageData.height ≠ s.canvasHeight) := by
      push_neg
      exact hdim
    have hh : handleResponse s img = respWrite s img := by
      unfold handleResponse
      rw [if_neg hcond]
    refine ⟨?_, fun _ => ⟨?_, ?_, ?_⟩, fun hn => absurd hdim hn⟩
    · rw [hh, respWrite_allocId]
      exact iff_of_true rfl hdim
    · rw [hh, respWrite_width]
    · rw [hh, respWrite_height]
    · rw [hh, respWrite_nextImageId]
  · have hcond : s.imageData.width ≠ s.canvasWidth ∨ s.imageData.height ≠ s.canvasHeight := by
      by_contra hcon
      push_neg at hcon
      exact hdim hcon
    have hh : handleResponse s img =
        respWrite { s with
          imageData := createImageData s.canvasWidth s.canvasHeight s.nextImageId,
          nextImageId := s.nextImageId + 1 } img := by
      unfold handleResponse
      rw [if_pos hcond]
    have ha : (handleResponse s img).1.imageData.allocId = s.nextImageId := by
      rw [hh, respWrite_allocId]
      simp [createImageData]
    refine ⟨?_, fun hd => absurd hd hdim, fun _ => ⟨ha, ?_, ?_, ?_⟩⟩
    · rw [ha]
      exact iff_of_false (by omega) hdim
    · rw [hh, respWrite_width]
      simp [createImageData]
    · rw [hh, respWrite_height]
      simp [createImageData]
    · rw [hh, respWrite_dataLength]
      simp [createImageData]

/-- Witness for C9: with matching dimensions the buffer identity is kept. -/
theorem c9_image_buffer_reuse_witness :
    (handleResponse st0 ([] : List ℕ)).1.imageData.allocId =
      st0.imageData.allocId :=
  (c9_image_buffer_reuse st0 [] (by decide)).1.mpr ⟨rfl, rfl⟩

/-- Claim C10: a falsy `upperFreq` option (absent or explicit 0) makes the
request carry sampleRate/2, identically in both cases, and no option value can
make the request carry an upper frequency of 0 at a nonzero sample rate. -/
theorem c10_upper_freq_default :
    (∀ r : ℚ, upperFreqOf (some 0) r = r / 2 ∧ upperFreqOf none r = r / 2) ∧
      (∀ (o : Option ℚ) (r : ℚ), upperFreqOf o r = 0 → r = 0) ∧
      (∀ (env : Env) (s : PluginState) (dd : DecodedData) (opts : Opts)
          (req : RenderRequest),
        env.decodedData = some dd → s.options = some opts →
        (opts.upperFreq = none ∨ opts.upperFreq = some 0) →
        (render env s).result = .submitted req →
        req.upperFreq = dd.sampleRate / 2) := by
  refine ⟨fun r => ⟨by simp [upperFreqOf], rfl⟩, ?_, ?_⟩
  · intro o r h
    cases o with
    | none =>
      simp only [upperFreqOf] at h
      rcases div_eq_zero_iff.mp h with h0 | h2
      · exact h0
      · norm_num at h2
    | some v =>
      simp only [upperFreqOf] at h
      by_cases hv : v ≠ 0
      · rw [if_pos hv] at h
        exact absurd h hv
      · rw [if_neg hv] at h
        rcases div_eq_zero_iff.mp h with h0 | h2
        · exact h0
        · norm_num at h2
  · intro env s dd opts req hdd hop hfreq hsub
    obtain ⟨ht, hu, hws, dd2, opts2, hdd2, hwr, hop2, hsw, hr, hreq, heq⟩ :=
      render_submitted_inv env s req hsub
    rw [hdd] at hdd2
    injection hdd2 with hdde
    subst hdde
    rw [hop] at hop2
    injection hop2 with hope
    subst hope
    subst hreq
    simp only [buildRequest]
    rcases hfreq with hf | hf <;> simp [hf, upperFreqOf]

/-- Witness for C10: with `upperFreq: 0` the submitted request carries
16000 / 2 = 8000. -/
theorem c10_upper_freq_witness :
    (buildRequest env0 dd0 opts1 st1.windowNum env0.wrapperWidth env0.wrapperHeight
        (rangeStart env0 dd0.length) (rangeEnd env0 dd0.length)).upperFreq = 8000 := by
  have hrend := render_submits env0 st1 dd0 opts1 rfl rfl rfl rfl env0_st0_neq rfl rfl rfl
  have hsub : (render env0 st1).result = .submitted (buildRequest env0 dd0 opts1
      st1.windowNum env0.wrapperWidth env0.wrapperHeight (rangeStart env0 dd0.length)
      (rangeEnd env0 dd0.length)) := by rw [hrend]
  have h := (c10_upper_freq_default).2.2 env0 st1 dd0 opts1 _ rfl rfl (Or.inr rfl) hsub
  rw [h]
  simp only [dd0]
  norm_num

end SpectrogramEmu
